import Mathlib

/-!
Verification development for the Monkey token model and abstract syntax tree.

The Go source has two files: package token (token kinds and keyword lookup)
and package ast (the syntax-tree node variants with the TokenLiteral and
String methods; the spec calls the latter render).

Modelling choices, from the source:
  * Go interface-typed and pointer-typed child fields may be nil, so every
    such field is an Option.  Calling a method through a nil interface or
    dereferencing a nil pointer panics in Go; a panic during rendering is
    modelled as the result none, so render has type Option String.  The
    fields the source guards with an explicit nil check (LetStatement.Value,
    ReturnStatement.ReturnValue, ExpressionStatement.Expression,
    IfExpression.Alternative) emit nothing when none instead of failing.
  * HashLiteral.Pairs is a Go map whose iteration order is unspecified; it
    is modelled as the list of pairs in the emission order of that single
    iteration, so a render statement is relative to that order.
  * TokenLiteral never panics on a non-nil node (it only reads the stored
    token, and for StringLiteral delegates to String which also only reads
    the token), so the tokenLiteral functions are total.
-/

namespace token

abbrev TokenType := String

/-- Token bundles the token kind with the exact literal text matched from
source, mirroring the Go struct of package token. -/
structure Token where
  type : TokenType
  literal : String
deriving Repr, DecidableEq

def ILLEGAL : TokenType := "ILLEGAL"
def EOF : TokenType := "EOF"
def IDENT : TokenType := "IDENT"
def INT : TokenType := "INT"
def STRING : TokenType := "STRING"
def ASSIGN : TokenType := "="
def PLUS : TokenType := "+"
def MINUS : TokenType := "-"
def BANG : TokenType := "!"
def ASTARISK : TokenType := "*"
def SLASH : TokenType := "/"
def COMMA : TokenType := ","
def SEMICOLON : TokenType := ";"
def COLON : TokenType := ":"
def LPAREN : TokenType := "("
def RPAREN : TokenType := ")"
def LBRACE : TokenType := "\x7b"
def RBRACE : TokenType := "\x7d"
def LT : TokenType := "<"
def GT : TokenType := ">"
def LBRACKET : TokenType := "["
def RBRACKET : TokenType := "]"
def EQ : TokenType := "=="
def NOT_EQ : TokenType := "!="
def FUNCTION : TokenType := "FUNCTION"
def LET : TokenType := "LET"
def TRUE : TokenType := "TRUE"
def FALSE : TokenType := "FALSE"
def IF : TokenType := "IF"
def ELSE : TokenType := "ELSE"
def RETURN : TokenType := "RETURN"

/-- keywords is the fixed reserved-word table of package token, as an
association list. -/
def keywords : List (String × TokenType) :=
  [(("fn"), FUNCTION), (("let"), LET), (("true"), TRUE), (("false"), FALSE),
   (("if"), IF), (("else"), ELSE), (("return"), RETURN)]

/-- LookuptIdent returns the keyword kind for a reserved word and IDENT for
any other text, mirroring the Go function of the same (misspelled) name. -/
def LookuptIdent (ident : String) : TokenType :=
  match keywords.lookup ident with
  | some ttype => ttype
  | none => IDENT

end token

namespace ast

/-- Identifier carries its token and its name text, mirroring the Go struct. -/
structure Identifier where
  token : token.Token
  value : String
deriving Repr, DecidableEq

/-- Identifier.String of the source returns the Value field verbatim. -/
def Identifier.render (id : Identifier) : String := id.value

mutual

inductive Stmt where
  | letStmt (token : token.Token) (name : Option Identifier) (value : Option Expr)
  | returnStmt (token : token.Token) (returnValue : Option Expr)
  | exprStmt (token : token.Token) (expression : Option Expr)
  | blockStmt (block : Block)
deriving Repr

inductive Block where
  | mk (token : token.Token) (statements : List Stmt)
deriving Repr

inductive Expr where
  | ident (id : Identifier)
  | intLit (token : token.Token) (value : Int)
  | strLit (token : token.Token) (value : String)
  | boolean (token : token.Token) (value : Bool)
  | prefixExpr (token : token.Token) (operator : String) (right : Option Expr)
  | infixExpr (token : token.Token) (left : Option Expr) (operator : String)
      (right : Option Expr)
  | ifExpr (token : token.Token) (condition : Option Expr)
      (consequence : Option Block) (alternative : Option Block)
  | funcLit (token : token.Token) (parameters : List Identifier)
      (body : Option Block)
  | callExpr (token : token.Token) (function : Option Expr)
      (arguments : List Expr)
  | arrayLit (token : token.Token) (elements : List Expr)
  | indexExpr (token : token.Token) (left : Option Expr) (index : Option Expr)
  | hashLit (token : token.Token) (pairs : List (Expr × Expr))
deriving Repr

end

mutual

/-- renderStmt models the String method of the Statement variants; a
nil-pointer panic (nil Name, or a panic in a rendered child) escaping the
call is the result none, propagated with Option.bind and Option.map. -/
def renderStmt : Stmt → Option String
  | .letStmt tok name value =>
    match name, value with
    | none, _ => none
    | some n, none =>
      some (tok.literal ++ (" ") ++ n.render ++ (" = ") ++ (";"))
    | some n, some v =>
      (renderExpr v).map fun vs =>
        tok.literal ++ (" ") ++ n.render ++ (" = ") ++ vs ++ (";")
  | .returnStmt tok returnValue =>
    match returnValue with
    | none => some (tok.literal ++ (" ") ++ (" ") ++ (";"))
    | some v =>
      (renderExpr v).map fun vs => tok.literal ++ (" ") ++ (" ") ++ vs ++ (";")
  | .exprStmt _tok expression =>
    match expression with
    | none => some ("")
    | some e => renderExpr e
  | .blockStmt b => renderBlock b

/-- renderBlock models the String method of BlockStatement: the bare
concatenation of the contained statements, no delimiters. -/
def renderBlock : Block → Option String
  | .mk _tok statements => renderStmtList statements

/-- renderStmtList concatenates statement renders in order, as the Go loops
over Program.Statements and BlockStatement.Statements do. -/
def renderStmtList : List Stmt → Option String
  | [] => some ("")
  | s :: rest =>
    (renderStmt s).bind fun x => (renderStmtList rest).map fun xs => x ++ xs

/-- renderExpr models the String method of the Expression variants; a nil
required child (Right, Left, Condition, Consequence, Body, Function, Index)
or a panic in a rendered child makes the whole call panic, hence none. -/
def renderExpr : Expr → Option String
  | .ident id => some id.render
  | .intLit tok _v => some tok.literal
  | .strLit tok _v => some tok.literal
  | .boolean tok _v => some tok.literal
  | .prefixExpr _tok operator right =>
    match right with
    | none => none
    | some r => (renderExpr r).map fun rs => ("(") ++ operator ++ rs ++ (")")
  | .infixExpr _tok left operator right =>
    match left, right with
    | none, _ => none
    | some _, none => none
    | some l, some r =>
      (renderExpr l).bind fun ls =>
        (renderExpr r).map fun rs =>
          ("(") ++ ls ++ (" ") ++ operator ++ (" ") ++ rs ++ (")")
  | .ifExpr _tok condition consequence alternative =>
    match condition, consequence, alternative with
    | none, _, _ => none
    | some _, none, _ => none
    | some c, some cq, none =>
      (renderExpr c).bind fun cs =>
        (renderBlock cq).map fun cqs => ("if") ++ cs ++ (" ") ++ cqs
    | some c, some cq, some alt =>
      (renderExpr c).bind fun cs =>
        (renderBlock cq).bind fun cqs =>
          (renderBlock alt).map fun alts =>
            ("if") ++ cs ++ (" ") ++ cqs ++ ("else ") ++ alts
  | .funcLit tok parameters body =>
    match body with
    | none => none
    | some b =>
      (renderBlock b).map fun bs =>
        tok.literal ++ ("(")
          ++ String.intercalate (", ") (parameters.map Identifier.render)
          ++ (")") ++ bs
  | .callExpr _tok function arguments =>
    match function with
    | none => none
    | some f =>
      (renderExprList arguments).bind fun args =>
        (renderExpr f).map fun fs =>
          fs ++ ("(") ++ String.intercalate (", ") args ++ (")")
  | .arrayLit _tok elements =>
    (renderExprList elements).map fun els =>
      ("[") ++ String.intercalate (", ") els ++ ("]")
  | .indexExpr _tok left index =>
    match left, index with
    | none, _ => none
    | some _, none => none
    | some l, some i =>
      (renderExpr l).bind fun ls =>
        (renderExpr i).map fun is => ("(") ++ ls ++ ("[") ++ is ++ ("])")
  | .hashLit _tok pairs =>
    (renderPairList pairs).map fun ps =>
      ("\x7b") ++ String.intercalate (", ") ps ++ ("\x7d")

/-- renderExprList renders each expression of a list in order, failing if any
element panics, as the Go loops building the joined argument and element
slices do. -/
def renderExprList : List Expr → Option (List String)
  | [] => some []
  | e :: rest =>
    (renderExpr e).bind fun x =>
      (renderExprList rest).map fun xs => x :: xs

/-- renderPairList renders each hash pair as key, colon, value, in emission
order, mirroring the loop of the HashLiteral String method. -/
def renderPairList : List (Expr × Expr) → Option (List String)
  | [] => some []
  | (k, v) :: rest =>
    (renderExpr k).bind fun ks =>
      (renderExpr v).bind fun vs =>
        (renderPairList rest).map fun xs => (ks ++ (":") ++ vs) :: xs

end

/-- tokenLiteralStmt models the TokenLiteral method of the Statement
variants: each returns the Literal field of the stored token. -/
def tokenLiteralStmt : Stmt → String
  | .letStmt tok _ _ => tok.literal
  | .returnStmt tok _ => tok.literal
  | .exprStmt tok _ => tok.literal
  | .blockStmt (.mk tok _) => tok.literal

/-- tokenLiteralExpr models the TokenLiteral method of the Expression
variants; for StringLiteral the source delegates to String, which returns
the Literal field of the stored token. -/
def tokenLiteralExpr : Expr → String
  | .ident id => id.token.literal
  | .intLit tok _ => tok.literal
  | .strLit tok _ => tok.literal
  | .boolean tok _ => tok.literal
  | .prefixExpr tok _ _ => tok.literal
  | .infixExpr tok _ _ _ => tok.literal
  | .ifExpr tok _ _ _ => tok.literal
  | .funcLit tok _ _ => tok.literal
  | .callExpr tok _ _ => tok.literal
  | .arrayLit tok _ => tok.literal
  | .indexExpr tok _ _ => tok.literal
  | .hashLit tok _ => tok.literal

/-- tokenLiteralStmtList concatenates the token literals of a statement
list in order, as the loop in the Program TokenLiteral method does. -/
def tokenLiteralStmtList : List Stmt → String
  | [] => ""
  | s :: rest => tokenLiteralStmt s ++ tokenLiteralStmtList rest

/-- Program is the root node holding the ordered top-level statements. -/
structure Program where
  statements : List Stmt
deriving Repr

/-- Program.tokenLiteral models the TokenLiteral method of Program. -/
def Program.tokenLiteral (p : Program) : String :=
  tokenLiteralStmtList p.statements

/-- Program.render models the String method of Program. -/
def Program.render (p : Program) : Option String :=
  renderStmtList p.statements

end ast

open ast

/-- Auxiliary: String.join distributes over cons. -/
theorem string_join_cons (a : String) (l : List String) :
    String.join (a :: l) = a ++ String.join l := by
  apply String.ext
  simp

/-- Auxiliary: String.intercalate on a one-element list returns the element. -/
theorem string_intercalate_singleton (s a : String) :
    String.intercalate s [a] = a := by
  simp [String.intercalate, String.intercalate.go]

/-- Auxiliary: when every statement of the list renders, with the results
listed by strs, the render loop returns their separator-free join. -/
theorem renderStmtList_join (l : List Stmt) (strs : List String)
    (h : l.map renderStmt = strs.map some) :
    renderStmtList l = some (String.join strs) := by
  induction l generalizing strs with
  | nil =>
    cases strs with
    | nil => rfl
    | cons a as => simp at h
  | cons s rest ih =>
    cases strs with
    | nil => simp at h
    | cons a as =>
      simp only [List.map_cons, List.cons.injEq] at h
      obtain ⟨h1, h2⟩ := h
      simp [renderStmtList, h1, ih as h2, string_join_cons]

/-- Auxiliary: the token-literal loop over a statement list equals joining
the mapped token literals. -/
theorem tokenLiteralStmtList_eq_join (l : List Stmt) :
    tokenLiteralStmtList l = String.join (l.map tokenLiteralStmt) := by
  induction l with
  | nil => rfl
  | cons s rest ih => simp [tokenLiteralStmtList, ih, string_join_cons]

/-- Claim C3: LookuptIdent returns the keyword token kind exactly for the
seven reserved words fn, let, true, false, if, else, return (case-sensitive
exact match) and IDENT for every other string; it is a pure total Lean
function by construction. -/
theorem C3_lookupt_ident_classifies :
    token.LookuptIdent ("fn") = token.FUNCTION ∧
    token.LookuptIdent ("let") = token.LET ∧
    token.LookuptIdent ("true") = token.TRUE ∧
    token.LookuptIdent ("false") = token.FALSE ∧
    token.LookuptIdent ("if") = token.IF ∧
    token.LookuptIdent ("else") = token.ELSE ∧
    token.LookuptIdent ("return") = token.RETURN ∧
    ∀ s : String,
      s ∉ [("fn"), ("let"), ("true"), ("false"), ("if"), ("else"), ("return")] →
      token.LookuptIdent s = token.IDENT := by
  refine ⟨rfl, rfl, rfl, rfl, rfl, rfl, rfl, ?_⟩
  intro s hs
  simp only [List.mem_cons, List.not_mem_nil, or_false, not_or] at hs
  obtain ⟨h1, h2, h3, h4, h5, h6, h7⟩ := hs
  have e1 : (s == ("fn")) = false := beq_eq_false_iff_ne.mpr h1
  have e2 : (s == ("let")) = false := beq_eq_false_iff_ne.mpr h2
  have e3 : (s == ("true")) = false := beq_eq_false_iff_ne.mpr h3
  have e4 : (s == ("false")) = false := beq_eq_false_iff_ne.mpr h4
  have e5 : (s == ("if")) = false := beq_eq_false_iff_ne.mpr h5
  have e6 : (s == ("else")) = false := beq_eq_false_iff_ne.mpr h6
  have e7 : (s == ("return")) = false := beq_eq_false_iff_ne.mpr h7
  simp [token.LookuptIdent, token.keywords, List.lookup,
    e1, e2, e3, e4, e5, e6, e7]

/-- Claim C3 witness: a non-reserved word classifies as IDENT. -/
theorem C3_lookupt_ident_witness :
    ("foobar") ∉
      [("fn"), ("let"), ("true"), ("false"), ("if"), ("else"), ("return")] ∧
    token.LookuptIdent ("foobar") = token.IDENT :=
  ⟨by decide, C3_lookupt_ident_classifies.2.2.2.2.2.2.2 ("foobar") (by decide)⟩

/-- Claim C10: for every StringLiteral node, TokenLiteral and render return
the identical string, namely the Literal field of the stored token; the
Value field influences neither result. -/
theorem C10_string_literal_token_literal_eq_render
    (tok : token.Token) (v : String) :
    tokenLiteralExpr (Expr.strLit tok v) = tok.literal ∧
    renderExpr (Expr.strLit tok v) = some tok.literal :=
  ⟨rfl, rfl⟩

/-- Claim C2 counterexample: a Boolean node whose Value is true but whose
token literal is the string banana renders as banana, not as the string
true, so render does not follow the Value field. -/
theorem C2_boolean_counterexample :
    renderExpr (Expr.boolean ⟨token.TRUE, ("banana")⟩ true) = some ("banana") ∧
    some ("banana") ≠ some ("true") :=
  ⟨rfl, by decide⟩

/-- Claim C2 amended: for every Boolean node, render returns the Literal
field of the stored token, regardless of the Value field (it equals true or
false only when the token literal holds that text). -/
theorem C2_boolean_renders_token_literal (tok : token.Token) (v : Bool) :
    renderExpr (Expr.boolean tok v) = some tok.literal :=
  rfl

/-- Claim C4: a LetStatement with non-nil Name and non-nil Value renders as
the let keyword literal, a space, the name render, the text of a spaced
equals sign, the value render, and a trailing semicolon; with nil Value the
value segment is omitted and the trailing semicolon is still emitted. -/
theorem C4_let_statement_render (tok : token.Token) (n : Identifier)
    (v : Expr) (vs : String) (h : renderExpr v = some vs) :
    renderStmt (Stmt.letStmt tok (some n) (some v)) =
      some (tok.literal ++ (" ") ++ n.render ++ (" = ") ++ vs ++ (";")) ∧
    renderStmt (Stmt.letStmt tok (some n) none) =
      some (tok.literal ++ (" ") ++ n.render ++ (" = ") ++ (";")) :=
  ⟨by simp [renderStmt, h], rfl⟩

/-- Claim C4 witness: the concrete let statement of the spec example. -/
theorem C4_let_statement_witness :
    renderExpr (Expr.intLit ⟨token.INT, ("5")⟩ 5) = some ("5") ∧
    renderStmt (Stmt.letStmt ⟨token.LET, ("let")⟩
        (some ⟨⟨token.IDENT, ("x")⟩, ("x")⟩)
        (some (Expr.intLit ⟨token.INT, ("5")⟩ 5))) =
      some ("let x = 5;") :=
  ⟨rfl,
    (C4_let_statement_render ⟨token.LET, ("let")⟩ ⟨⟨token.IDENT, ("x")⟩, ("x")⟩
      (Expr.intLit ⟨token.INT, ("5")⟩ 5) ("5") rfl).1⟩

/-- Claim C5: a ReturnStatement with non-nil ReturnValue renders as the
return keyword literal, exactly two spaces, the value render, and a trailing
semicolon; with nil ReturnValue the value segment is omitted and the
semicolon retained. -/
theorem C5_return_statement_render (tok : token.Token)
    (v : Expr) (vs : String) (h : renderExpr v = some vs) :
    renderStmt (Stmt.returnStmt tok (some v)) =
      some (tok.literal ++ ("  ") ++ vs ++ (";")) ∧
    renderStmt (Stmt.returnStmt tok none) =
      some (tok.literal ++ ("  ") ++ (";")) := by
  constructor
  · simp only [renderStmt, h]
    rw [String.append_assoc tok.literal (" ") (" ")]
    rfl
  · simp only [renderStmt]
    rw [String.append_assoc tok.literal (" ") (" ")]
    rfl

/-- Claim C5 witness: the concrete return statement of the spec example,
with the two-space contract visible in the output. -/
theorem C5_return_statement_witness :
    renderExpr (Expr.boolean ⟨token.TRUE, ("true")⟩ true) = some ("true") ∧
    renderStmt (Stmt.returnStmt ⟨token.RETURN, ("return")⟩
        (some (Expr.boolean ⟨token.TRUE, ("true")⟩ true))) =
      some ("return  true;") :=
  ⟨rfl,
    (C5_return_statement_render ⟨token.RETURN, ("return")⟩
      (Expr.boolean ⟨token.TRUE, ("true")⟩ true) ("true") rfl).1⟩

/-- Claim C6: a PrefixExpression with non-nil Right renders as the operator
wrapped with its operand in parentheses with no inner space, and an
InfixExpression with non-nil Left and Right renders fully parenthesized
with single-space padding around the operator. -/
theorem C6_prefix_infix_render (tok tok2 : token.Token) (op op2 : String)
    (r l r2 : Expr) (rs ls rs2 : String)
    (hr : renderExpr r = some rs) (hl : renderExpr l = some ls)
    (hr2 : renderExpr r2 = some rs2) :
    renderExpr (Expr.prefixExpr tok op (some r)) =
      some (("(") ++ op ++ rs ++ (")")) ∧
    renderExpr (Expr.infixExpr tok2 (some l) op2 (some r2)) =
      some (("(") ++ ls ++ (" ") ++ op2 ++ (" ") ++ rs2 ++ (")")) :=
  ⟨by simp [renderExpr, hr], by simp [renderExpr, hl, hr2]⟩

/-- Claim C6 witness: the concrete prefix and infix examples of the spec. -/
theorem C6_prefix_infix_witness :
    renderExpr (Expr.prefixExpr ⟨token.MINUS, ("-")⟩ ("-")
        (some (Expr.intLit ⟨token.INT, ("5")⟩ 5))) = some ("(-5)") ∧
    renderExpr (Expr.infixExpr ⟨token.PLUS, ("+")⟩
        (some (Expr.intLit ⟨token.INT, ("1")⟩ 1)) ("+")
        (some (Expr.intLit ⟨token.INT, ("2")⟩ 2))) = some ("(1 + 2)") :=
  C6_prefix_infix_render ⟨token.MINUS, ("-")⟩ ⟨token.PLUS, ("+")⟩ ("-") ("+")
    (Expr.intLit ⟨token.INT, ("5")⟩ 5) (Expr.intLit ⟨token.INT, ("1")⟩ 1)
    (Expr.intLit ⟨token.INT, ("2")⟩ 2) ("5") ("1") ("2") rfl rfl rfl

/-- Claim C1 counterexample: rendering is not fault-free on every node with
nil children: a LetStatement whose Name is nil dereferences the nil pointer
inside render (the source calls ls.Name.String() with no nil check), so the
call faults; in the embedding the render result is none, not a string. -/
theorem C1_render_never_fails_counterexample :
    renderStmt (Stmt.letStmt ⟨token.LET, ("let")⟩ none none) = none := rfl

/-- Claim C1 amended: rendering never fails when the nil children are among
the four nil-checked optional fields (LetStatement.Value,
ReturnStatement.ReturnValue, ExpressionStatement.Expression,
IfExpression.Alternative), where it degrades to empty segments; but a nil
LetStatement.Name, nil PrefixExpression.Right, nil IfExpression.Condition,
nil IfExpression.Consequence or nil FunctionLiteral.Body makes render fault
(none), since the source calls through them without a nil check. -/
theorem C1_amended_nil_tolerance :
    (∀ (tok : token.Token) (n : Identifier),
      (renderStmt (Stmt.letStmt tok (some n) none)).isSome = true) ∧
    (∀ tok : token.Token,
      (renderStmt (Stmt.returnStmt tok none)).isSome = true) ∧
    (∀ tok : token.Token, renderStmt (Stmt.exprStmt tok none) = some ("")) ∧
    (∀ (tok : token.Token) (c : Expr) (cq : Block) (cs cqs : String),
      renderExpr c = some cs → renderBlock cq = some cqs →
      (renderExpr (Expr.ifExpr tok (some c) (some cq) none)).isSome = true) ∧
    (∀ (tok : token.Token) (v : Option Expr),
      renderStmt (Stmt.letStmt tok none v) = none) ∧
    (∀ (tok : token.Token) (op : String),
      renderExpr (Expr.prefixExpr tok op none) = none) ∧
    (∀ (tok : token.Token) (cq alt : Option Block),
      renderExpr (Expr.ifExpr tok none cq alt) = none) ∧
    (∀ (tok : token.Token) (c : Expr) (alt : Option Block),
      renderExpr (Expr.ifExpr tok (some c) none alt) = none) ∧
    (∀ (tok : token.Token) (params : List Identifier),
      renderExpr (Expr.funcLit tok params none) = none) := by
  refine ⟨fun tok n => rfl, fun tok => rfl, fun tok => rfl, ?_,
    fun tok v => rfl, fun tok op => rfl, fun tok cq alt => rfl,
    fun tok c alt => rfl, fun tok params => rfl⟩
  intro tok c cq cs cqs hc hq
  simp [renderExpr, hc, hq]

/-- Claim C1 amended witness: an IfExpression with present condition and
consequence and absent alternative renders without fault. -/
theorem C1_amended_nil_tolerance_witness :
    (renderExpr (Expr.ifExpr ⟨token.IF, ("if")⟩
      (some (Expr.boolean ⟨token.TRUE, ("true")⟩ true))
      (some (Block.mk ⟨token.LBRACE, ("\x7b")⟩ [])) none)).isSome = true :=
  C1_amended_nil_tolerance.2.2.2.1 ⟨token.IF, ("if")⟩
    (Expr.boolean ⟨token.TRUE, ("true")⟩ true)
    (Block.mk ⟨token.LBRACE, ("\x7b")⟩ []) ("true") ("") rfl rfl

/-- Claim C7: Program token-literal is the concatenation of the top-level
statement token-literals in order, Program render is the concatenation of
the statement renders in order with no separator, and both are empty on an
empty Program. -/
theorem C7_program_concatenation :
    (∀ p : Program,
      p.tokenLiteral = String.join (p.statements.map tokenLiteralStmt)) ∧
    (∀ (p : Program) (strs : List String),
      p.statements.map renderStmt = strs.map some →
      p.render = some (String.join strs)) ∧
    Program.tokenLiteral ⟨[]⟩ = ("") ∧
    Program.render ⟨[]⟩ = some ("") := by
  refine ⟨?_, ?_, rfl, rfl⟩
  · intro p
    exact tokenLiteralStmtList_eq_join p.statements
  · intro p strs h
    exact renderStmtList_join p.statements strs h

/-- Claim C7 witness: a two-statement program concatenates the two renders
with no separator. -/
theorem C7_program_concatenation_witness :
    ([Stmt.exprStmt ⟨token.INT, ("1")⟩ (some (Expr.intLit ⟨token.INT, ("1")⟩ 1)),
      Stmt.exprStmt ⟨token.INT, ("2")⟩
        (some (Expr.intLit ⟨token.INT, ("2")⟩ 2))].map renderStmt =
      [("1"), ("2")].map some) ∧
    Program.render
      ⟨[Stmt.exprStmt ⟨token.INT, ("1")⟩ (some (Expr.intLit ⟨token.INT, ("1")⟩ 1)),
        Stmt.exprStmt ⟨token.INT, ("2")⟩
          (some (Expr.intLit ⟨token.INT, ("2")⟩ 2))]⟩ = some ("12") :=
  ⟨rfl,
    C7_program_concatenation.2.1
      ⟨[Stmt.exprStmt ⟨token.INT, ("1")⟩ (some (Expr.intLit ⟨token.INT, ("1")⟩ 1)),
        Stmt.exprStmt ⟨token.INT, ("2")⟩
          (some (Expr.intLit ⟨token.INT, ("2")⟩ 2))]⟩ [("1"), ("2")] rfl⟩

/-- Claim C8: an IfExpression with non-nil Condition and Consequence renders
as the word if, the condition render, a space and the consequence render,
followed by the word else, a space and the alternative render exactly when
Alternative is non-nil; no braces are emitted, since a block renders as the
bare separator-free concatenation of its statement renders. -/
theorem C8_if_expression_render (tok : token.Token) (c : Expr)
    (cq alt : Block) (cs cqs alts : String)
    (hc : renderExpr c = some cs) (hq : renderBlock cq = some cqs)
    (ha : renderBlock alt = some alts) :
    renderExpr (Expr.ifExpr tok (some c) (some cq) none) =
      some (("if") ++ cs ++ (" ") ++ cqs) ∧
    renderExpr (Expr.ifExpr tok (some c) (some cq) (some alt)) =
      some (("if") ++ cs ++ (" ") ++ cqs ++ ("else ") ++ alts) ∧
    (∀ (btok : token.Token) (stmts : List Stmt) (strs : List String),
      stmts.map renderStmt = strs.map some →
      renderBlock (Block.mk btok stmts) = some (String.join strs)) := by
  refine ⟨by simp [renderExpr, hc, hq], by simp [renderExpr, hc, hq, ha], ?_⟩
  intro btok stmts strs h
  exact renderStmtList_join stmts strs h

/-- Claim C8 witness: a concrete IfExpression with and without alternative,
showing the brace-free, non-reparseable output form. -/
theorem C8_if_expression_witness :
    renderExpr (Expr.ifExpr ⟨token.IF, ("if")⟩
      (some (Expr.boolean ⟨token.TRUE, ("true")⟩ true))
      (some (Block.mk ⟨token.LBRACE, ("\x7b")⟩
        [Stmt.exprStmt ⟨token.IDENT, ("a")⟩
          (some (Expr.ident ⟨⟨token.IDENT, ("a")⟩, ("a")⟩))]))
      (some (Block.mk ⟨token.LBRACE, ("\x7b")⟩
        [Stmt.exprStmt ⟨token.IDENT, ("b")⟩
          (some (Expr.ident ⟨⟨token.IDENT, ("b")⟩, ("b")⟩))]))) =
      some ("iftrue aelse b") :=
  (C8_if_expression_render ⟨token.IF, ("if")⟩
    (Expr.boolean ⟨token.TRUE, ("true")⟩ true)
    (Block.mk ⟨token.LBRACE, ("\x7b")⟩
      [Stmt.exprStmt ⟨token.IDENT, ("a")⟩
        (some (Expr.ident ⟨⟨token.IDENT, ("a")⟩, ("a")⟩))])
    (Block.mk ⟨token.LBRACE, ("\x7b")⟩
      [Stmt.exprStmt ⟨token.IDENT, ("b")⟩
        (some (Expr.ident ⟨⟨token.IDENT, ("b")⟩, ("b")⟩))])
    ("true") ("a") ("b") rfl rfl rfl).2.1

/-- Claim C9: a HashLiteral renders as an opening brace, the key render,
colon and value render of each pair joined by comma-space in the emission
order of the underlying map (modelled as the pair list order), and a closing
brace; the empty hash renders as the two braces and a one-pair hash as the
braces around the single key-colon-value string. -/
theorem C9_hash_literal_render (tok tok1 tok2 : token.Token)
    (pairs : List (Expr × Expr)) (ps : List String)
    (k v : Expr) (ks vs : String)
    (hp : renderPairList pairs = some ps)
    (hk : renderExpr k = some ks) (hv : renderExpr v = some vs) :
    renderExpr (Expr.hashLit tok pairs) =
      some (("\x7b") ++ String.intercalate (", ") ps ++ ("\x7d")) ∧
    renderExpr (Expr.hashLit tok1 []) = some ("\x7b\x7d") ∧
    renderExpr (Expr.hashLit tok2 [(k, v)]) =
      some (("\x7b") ++ ks ++ (":") ++ vs ++ ("\x7d")) := by
  refine ⟨by simp [renderExpr, hp], rfl, ?_⟩
  simp [renderExpr, renderPairList, hk, hv, string_intercalate_singleton,
    String.append_assoc]

/-- Claim C9 witness: the empty hash and a concrete one-pair hash. -/
theorem C9_hash_literal_witness :
    renderPairList [((Expr.strLit ⟨token.STRING, ("a")⟩ ("a")),
      (Expr.intLit ⟨token.INT, ("1")⟩ 1))] = some [("a:1")] ∧
    renderExpr (Expr.hashLit ⟨token.LBRACE, ("\x7b")⟩
      [((Expr.strLit ⟨token.STRING, ("a")⟩ ("a")),
        (Expr.intLit ⟨token.INT, ("1")⟩ 1))]) = some ("\x7ba:1\x7d") :=
  ⟨rfl,
    (C9_hash_literal_render ⟨token.LBRACE, ("\x7b")⟩ ⟨token.LBRACE, ("\x7b")⟩
      ⟨token.LBRACE, ("\x7b")⟩
      [((Expr.strLit ⟨token.STRING, ("a")⟩ ("a")),
        (Expr.intLit ⟨token.INT, ("1")⟩ 1))] [("a:1")]
      (Expr.strLit ⟨token.STRING, ("a")⟩ ("a"))
      (Expr.intLit ⟨token.INT, ("1")⟩ 1) ("a") ("1") rfl rfl rfl).1⟩
